import Mathlib

/-!
Verification of the transformers-practice repository.

The file embeds the data-pipeline functions of src/ctg/data/utils.py
(right_shift, extend_vocabulary, the seq2seq preprocessing label masking and
the collator selection of load_seq2seq_data) and the epoch loop of
tod/src/tod/train/train.py (TrainingAgent.run_epochs, epoch_iteration,
validate) as executable Lean definitions, and proves theorems about them.

Conventions of the embedding:
- a torch 2D integer tensor is a rectangular List (List Int);
- Python runtime failures (uncaught AssertionError, AttributeError,
  TypeError, NameError, ValueError, IndexError) are Except.error values of
  the PyError type: an .error result models a fatal, uncaught exception;
- float loss scalars are idealised as integers (exact arithmetic);
- external collaborators (tokenizer, model forward, optimizer) are abstract:
  per-step losses produced by the model forward are inputs of the embedding.
-/

deriving instance DecidableEq for Except

/-- Attribute names that the epoch loop of train.py dereferences on the
TrainingAgent instance. The first six are the methods the class defines
(lines 34-136); evaluateA is the name line 89 calls and gpuA the name
line 126 reads, neither of which the class defines anywhere. -/
inductive AttrName
  | resetA | taskSetupA | trainA | runEpochsA | epochIterationA | validateA
  | evaluateA | gpuA
  deriving DecidableEq, Repr

/-- Python runtime errors raised by the embedded code paths. Each constructor
names one concrete raise site in the source. -/
inductive PyError
  /-- utils.py line 33: assert pad_token_id is not None. -/
  | assertionPadTokenId
  /-- utils.py line 38: assert torch.all(shifted_input_ids >= 0). -/
  | assertionNonNegative
  /-- utils.py line 31: writing index 0 of a zero-length sequence axis. -/
  | indexErrorEmptySequence
  /-- utils.py lines 73-75: raise ValueError for a bad vocabulary file. -/
  | valueErrorUnknownSrcFile
  /-- utils.py line 164: the keyword argument model refers to a name that is
  bound nowhere in load_seq2seq_data (the parameter is commented out). -/
  | nameErrorModelUndefined
  /-- train.py: attribute lookup self.<a> on the TrainingAgent instance for a
  name the class does not define. -/
  | agentHasNoAttribute (a : AttrName)
  /-- train.py line 101: self.train.gpu, where self.train is the bound
  method train, which has no attribute gpu. -/
  | methodTrainHasNoAttributeGpu
  /-- train.py line 106: the forward call passes attention_mask=input_mask,
  but input_mask is assigned only on line 102 inside the transfer branch;
  whenever that branch was skipped the local name is unbound and evaluating
  the argument raises UnboundLocalError before the forward runs. -/
  | unboundLocalInputMask
  deriving DecidableEq, Repr

/-! ## right_shift (utils.py lines 25-41) -/

/-- utils.py line 36: the replacement performed by
shifted_input_ids.masked_fill_(shifted_input_ids == -100, pad_token_id)
at one position. -/
def maskNeg100 (pad v : Int) : Int := if v = -100 then pad else v

/-- The value of the local shifted_input_ids after utils.py lines 29-36:
line 29 allocates a same-shape zero grid, line 30 writes input_ids[..., :-1]
into positions [..., 1:], line 31 writes start_token_id into position 0 of
every row, line 36 replaces every -100 by pad_token_id. -/
def shifted_input_ids (startTok pad : Int) (inputIds : List (List Int)) :
    List (List Int) :=
  inputIds.map (fun row => (startTok :: row.dropLast).map (maskNeg100 pad))

/-- utils.py lines 25-41, right_shift. pad_token_id is Option Int because the
source asserts it is not None. The result is .ok on normal return; each
.error models an uncaught exception: IndexError when the sequence axis has
length zero (line 31 writes index 0), AssertionError when pad_token_id is
None (line 33) or when the shifted grid holds a negative value (line 38). -/
def right_shift (startTok : Int) (padTok : Option Int)
    (inputIds : List (List Int)) : Except PyError (List (List Int)) :=
  if inputIds.any List.isEmpty then .error PyError.indexErrorEmptySequence
  else
    match padTok with
    | none => .error PyError.assertionPadTokenId
    | some pad =>
      let out := shifted_input_ids startTok pad inputIds
      if out.all (fun row => row.all (fun v => decide (0 ≤ v))) then .ok out
      else .error PyError.assertionNonNegative

/-! ### Helper lemmas about list indexing -/

theorem getD_map_of_lt {α β : Type} (f : α → β) (l : List α) (r : Nat)
    (h : r < l.length) (d : α) (d' : β) :
    (l.map f).getD r d' = f (l.getD r d) := by
  induction l generalizing r with
  | nil => simp at h
  | cons a t ih =>
    cases r with
    | zero => rfl
    | succ n => exact ih n (Nat.lt_of_succ_lt_succ h)

theorem getD_mem_of_lt {α : Type} (l : List α) (r : Nat) (h : r < l.length)
    (d : α) : l.getD r d ∈ l := by
  induction l generalizing r with
  | nil => simp at h
  | cons a t ih =>
    cases r with
    | zero => exact List.mem_cons_self _ _
    | succ n => exact List.mem_cons_of_mem _ (ih n (Nat.lt_of_succ_lt_succ h))

theorem getD_dropLast_of_lt {α : Type} (l : List α) (i : Nat)
    (h : i + 1 < l.length) (d : α) : l.dropLast.getD i d = l.getD i d := by
  induction l generalizing i with
  | nil => simp at h
  | cons a t ih =>
    cases t with
    | nil => simp at h
    | cons b u =>
      cases i with
      | zero => rfl
      | succ n =>
        simpa [List.dropLast] using ih n (Nat.lt_of_succ_lt_succ h)

/-- Inversion of a normal return of right_shift: the returned grid is exactly
the local shifted_input_ids, no input row was empty, and the non-negativity
check of utils.py line 38 passed. -/
theorem right_shift_ok_elim {startTok pad : Int} {ids out : List (List Int)}
    (h : right_shift startTok (some pad) ids = Except.ok out) :
    out = shifted_input_ids startTok pad ids ∧
    ids.any List.isEmpty = false ∧
    (shifted_input_ids startTok pad ids).all
      (fun row => row.all (fun v => decide (0 ≤ v))) = true := by
  unfold right_shift at h
  cases hg : ids.any List.isEmpty with
  | true => rw [hg] at h; simp at h
  | false =>
    rw [hg] at h
    simp only [Bool.false_eq_true, if_false] at h
    cases hall : (shifted_input_ids startTok pad ids).all
        (fun row => row.all (fun v => decide (0 ≤ v))) with
    | true =>
      rw [hall] at h
      simp only [if_true] at h
      exact ⟨(Except.ok.injEq _ _ ▸ h).symm, rfl, rfl⟩
    | false =>
      rw [hall] at h
      simp at h

/-- Rows of a grid on which right_shift returned normally are nonempty. -/
theorem right_shift_ok_row_nonempty {startTok pad : Int}
    {ids out : List (List Int)}
    (h : right_shift startTok (some pad) ids = Except.ok out) :
    ∀ row ∈ ids, row ≠ [] := by
  intro row hrow hcontra
  have hg := (right_shift_ok_elim h).2.1
  rw [List.any_eq_false] at hg
  exact absurd (by simp [hcontra] : row.isEmpty = true) (hg row hrow)

/-- With pad_token_id = None, right_shift never returns normally: the run dies
either at the IndexError of line 31 or at the assert of line 33. -/
theorem right_shift_none_ne_ok (startTok : Int) (ids out : List (List Int)) :
    right_shift startTok none ids ≠ Except.ok out := by
  unfold right_shift
  cases hg : ids.any List.isEmpty with
  | true => simp [hg]
  | false => simp [hg]

/-- Claim C1: for every 2D integer grid with at least one column on which
right_shift returns normally, the returned grid has the same shape, its
column 0 holds start_token_id (after the sentinel replacement of line 36),
and its column i for i >= 1 holds input column i-1, with every -100 produced
by the shift replaced by pad_token_id. -/
theorem right_shift_shape_and_shift (startTok pad : Int)
    (ids out : List (List Int))
    (h : right_shift startTok (some pad) ids = Except.ok out) :
    out.length = ids.length ∧
    ∀ r, r < ids.length →
      (out.getD r []).length = (ids.getD r []).length ∧
      (out.getD r []).getD 0 0 = maskNeg100 pad startTok ∧
      ∀ i, 1 ≤ i → i < (ids.getD r []).length →
        (out.getD r []).getD i 0 =
          maskNeg100 pad ((ids.getD r []).getD (i - 1) 0) := by
  have hne := right_shift_ok_row_nonempty h
  obtain ⟨hout, -, -⟩ := right_shift_ok_elim h
  subst hout
  refine ⟨List.length_map _ _, ?_⟩
  intro r hr
  have hrow : (shifted_input_ids startTok pad ids).getD r [] =
      (startTok :: (ids.getD r []).dropLast).map (maskNeg100 pad) :=
    getD_map_of_lt _ ids r hr [] []
  have hrowne : ids.getD r [] ≠ [] := hne _ (getD_mem_of_lt ids r hr [])
  have hlen0 : (ids.getD r []).length ≠ 0 :=
    fun hc => hrowne (List.length_eq_zero.mp hc)
  refine ⟨?_, ?_, ?_⟩
  · rw [hrow]
    simp only [List.length_map, List.length_cons, List.length_dropLast]
    omega
  · rw [hrow]; rfl
  · intro i h1 h2
    obtain ⟨n, rfl⟩ : ∃ n, i = n + 1 := ⟨i - 1, by omega⟩
    rw [hrow]
    have hcons : ((startTok :: (ids.getD r []).dropLast).map
        (maskNeg100 pad)).getD (n + 1) 0 =
        ((ids.getD r []).dropLast.map (maskNeg100 pad)).getD n 0 := rfl
    rw [hcons]
    have hn : n < (ids.getD r []).dropLast.length := by
      rw [List.length_dropLast]; omega
    rw [getD_map_of_lt _ _ n hn 0 0, getD_dropLast_of_lt _ n (by omega) 0]
    norm_num

theorem right_shift_shape_and_shift_witness :
    right_shift 1 (some 0) [[5, 6, 7]] = Except.ok [[1, 5, 6]] ∧
    (([[1, 5, 6]] : List (List Int)).getD 0 []).getD 0 0 = 1 := by
  refine ⟨by decide, ?_⟩
  have h := (right_shift_shape_and_shift 1 0 [[5, 6, 7]] [[1, 5, 6]]
    (by decide)).2 0 (by decide)
  exact h.2.1.trans (by decide)

/-- Claim C2: a grid returned normally by right_shift contains no occurrence
of the sentinel -100: line 36 replaced every -100 by pad_token_id, and the
assert of line 38 rules out the case pad_token_id = -100. -/
theorem right_shift_no_sentinel (startTok : Int) (padTok : Option Int)
    (ids out : List (List Int))
    (h : right_shift startTok padTok ids = Except.ok out) :
    ∀ row ∈ out, (-100 : Int) ∉ row := by
  cases padTok with
  | none => exact absurd h (right_shift_none_ne_ok startTok ids out)
  | some pad =>
    obtain ⟨hout, -, hall⟩ := right_shift_ok_elim h
    subst hout
    intro row hrow hmem
    rw [List.all_eq_true] at hall
    have hr := hall row hrow
    rw [List.all_eq_true] at hr
    have := of_decide_eq_true (hr _ hmem)
    omega

theorem right_shift_no_sentinel_witness :
    right_shift 1 (some 0) [[-100, 8, 9]] = Except.ok [[1, 0, 8]] ∧
    (-100 : Int) ∉ ([1, 0, 8] : List Int) := by
  refine ⟨by decide, ?_⟩
  exact right_shift_no_sentinel 1 (some 0) [[-100, 8, 9]] [[1, 0, 8]]
    (by decide) [1, 0, 8] (by decide)

/-- Claim C3: right_shift fails fatally (never returns normally) when
pad_token_id is None, and likewise whenever the computed shifted grid holds a
negative value; whenever it returns normally, every value of the returned
grid is non-negative. -/
theorem right_shift_assertions (startTok : Int) (padTok : Option Int)
    (ids : List (List Int)) :
    (padTok = none → ∀ out, right_shift startTok padTok ids ≠ Except.ok out) ∧
    (∀ p, padTok = some p →
      (∃ row ∈ shifted_input_ids startTok p ids, ∃ v ∈ row, v < 0) →
      ∀ out, right_shift startTok padTok ids ≠ Except.ok out) ∧
    (∀ out, right_shift startTok padTok ids = Except.ok out →
      ∀ row ∈ out, ∀ v ∈ row, 0 ≤ v) := by
  refine ⟨?_, ?_, ?_⟩
  · rintro rfl out
    exact right_shift_none_ne_ok startTok ids out
  · rintro p rfl ⟨row, hrow, v, hv, hneg⟩ out h
    obtain ⟨-, -, hall⟩ := right_shift_ok_elim h
    rw [List.all_eq_true] at hall
    have hr := hall row hrow
    rw [List.all_eq_true] at hr
    have := of_decide_eq_true (hr _ hv)
    omega
  · intro out h row hrow v hv
    cases padTok with
    | none => exact absurd h (right_shift_none_ne_ok startTok ids out)
    | some p =>
      obtain ⟨hout, -, hall⟩ := right_shift_ok_elim h
      subst hout
      rw [List.all_eq_true] at hall
      have hr := hall row hrow
      rw [List.all_eq_true] at hr
      exact of_decide_eq_true (hr _ hv)

theorem right_shift_assertions_witness :
    right_shift 1 none [[5, 6]] ≠ Except.ok [[1, 5]] ∧
    right_shift 1 (some 0) [[-5, 7]] ≠ Except.ok [[1, -5]] ∧
    (0 : Int) ≤ 1 := by
  refine ⟨(right_shift_assertions 1 none [[5, 6]]).1 rfl [[1, 5]], ?_, ?_⟩
  · exact (right_shift_assertions 1 (some 0) [[-5, 7]]).2.1 0 rfl
      ⟨[1, -5], by decide, -5, by decide, by decide⟩ [[1, -5]]
  · exact (right_shift_assertions 1 (some 0) [[5, 6]]).2.2 [[1, 5]]
      (by decide) [1, 5] (by decide) 1 (by decide)

/-! ### Frame property of right_shift (claim C10)

To speak about mutation, lines 29-36 of utils.py are embedded a second time
as transformers of a store holding the two tensors live in the function:
the argument input_ids and the local shifted_input_ids. Each step writes the
tensor that the corresponding source line assigns to. -/

/-- The tensors live inside right_shift. -/
structure RSStore where
  inputIds : List (List Int)
  shifted : List (List Int)

/-- Line 29: shifted_input_ids = input_ids.new_zeros(input_ids.shape);
new_zeros reads only the shape of input_ids and allocates a fresh grid. -/
def rsAlloc (s : RSStore) : RSStore :=
  { s with shifted := s.inputIds.map (fun row => row.map (fun _ => (0 : Int))) }

/-- Line 30: shifted_input_ids[..., 1:] = input_ids[..., :-1].clone(); the
clone reads input_ids, the slice assignment writes positions 1: of every row
of shifted_input_ids and keeps position 0. -/
def rsCopyShift (s : RSStore) : RSStore :=
  { s with shifted :=
      (s.shifted.zip s.inputIds).map (fun p =>
        match p.1 with
        | [] => []
        | h :: _ => h :: p.2.dropLast) }

/-- Line 31: shifted_input_ids[..., 0] = start_token_id. -/
def rsSetStart (startTok : Int) (s : RSStore) : RSStore :=
  { s with shifted := s.shifted.map (fun row =>
      match row with
      | [] => []
      | _ :: t => startTok :: t) }

/-- Line 36: shifted_input_ids.masked_fill_(shifted_input_ids == -100,
pad_token_id), an in-place write on shifted_input_ids. -/
def rsMaskedFill (pad : Int) (s : RSStore) : RSStore :=
  { s with shifted := s.shifted.map (fun row => row.map (maskNeg100 pad)) }

/-- The store after running lines 29-36 of right_shift on input_ids. -/
def right_shift_store (startTok pad : Int) (inputIds : List (List Int)) :
    RSStore :=
  rsMaskedFill pad (rsSetStart startTok (rsCopyShift (rsAlloc ⟨inputIds, []⟩)))

/-- Claim C10: right_shift never mutates its input_ids argument: after all
four writing steps the input grid of the store holds exactly its initial
values; every write of lines 29-36 targets the fresh shifted_input_ids. -/
theorem right_shift_no_mutation (startTok pad : Int)
    (inputIds : List (List Int)) :
    (right_shift_store startTok pad inputIds).inputIds = inputIds := rfl

/-- Coherence of the two embeddings of right_shift: on grids with at least
one column, the store-transformer model computes in its shifted_input_ids
cell exactly the grid of the functional model. -/
theorem right_shift_store_shifted (startTok pad : Int)
    (inputIds : List (List Int)) (hne : ∀ row ∈ inputIds, row ≠ []) :
    (right_shift_store startTok pad inputIds).shifted =
      shifted_input_ids startTok pad inputIds := by
  simp only [right_shift_store, rsAlloc, rsCopyShift, rsSetStart, rsMaskedFill,
    shifted_input_ids]
  revert hne
  induction inputIds with
  | nil => intro _; rfl
  | cons row rows ih =>
    intro hne
    have htail := ih (fun r hr => hne r (List.mem_cons_of_mem _ hr))
    simp only [List.map_cons, List.zip_cons_cons]
    refine congrArg₂ List.cons ?_ htail
    cases row with
    | nil => exact absurd rfl (hne [] (List.mem_cons_self _ _))
    | cons a t => rfl

/-! ## Seq2seq preprocessing label masking (utils.py lines 109-135, claim C4)

The tokenizer is an external collaborator: the grid of tokenized target ids
produced by the call on lines 121-127 is an input of the embedding, and the
embedded code is the masking applied to it on lines 129-132 before it is
stored under the labels key on line 134. -/

/-- Lines 130-132, the inner comprehension applied to one target sequence:
every token equal to tokenizer.pad_token_id becomes -100, every other token
is kept. -/
def maskPadLabel (padTokenId : Int) (label : List Int) : List Int :=
  label.map (fun l => if l ≠ padTokenId then l else -100)

/-- Lines 129-134: the labels stored by preprocess, as a function of the
tokenized target ids. The masking runs only when pad_to_max_length and
ignore_pad_for_loss are both true (line 129); otherwise the tokenized target
ids are stored unchanged. -/
def preprocessLabels (padToMaxLength ignorePadForLoss : Bool)
    (padTokenId : Int) (targetIds : List (List Int)) : List (List Int) :=
  if padToMaxLength && ignorePadForLoss then
    targetIds.map (maskPadLabel padTokenId)
  else targetIds

/-- Claim C4: with pad_to_max_length and ignore_pad_for_loss both true, the
stored labels have the shape of the tokenized targets, every position whose
token equals the tokenizer pad id holds -100, and every other position holds
the original token. -/
theorem seq2seq_label_masking (padTokenId : Int) (tgt : List (List Int))
    (r i : Nat) (hr : r < tgt.length) (hi : i < (tgt.getD r []).length) :
    (preprocessLabels true true padTokenId tgt).length = tgt.length ∧
    ((preprocessLabels true true padTokenId tgt).getD r []).length =
      (tgt.getD r []).length ∧
    ((preprocessLabels true true padTokenId tgt).getD r []).getD i 0 =
      (if (tgt.getD r []).getD i 0 = padTokenId then -100
       else (tgt.getD r []).getD i 0) := by
  have hdef : preprocessLabels true true padTokenId tgt =
      tgt.map (maskPadLabel padTokenId) := rfl
  rw [hdef]
  have hrow : (tgt.map (maskPadLabel padTokenId)).getD r [] =
      maskPadLabel padTokenId (tgt.getD r []) :=
    getD_map_of_lt _ tgt r hr [] []
  refine ⟨List.length_map _ _, ?_, ?_⟩
  · rw [hrow]; exact List.length_map _ _
  · rw [hrow]
    unfold maskPadLabel
    rw [getD_map_of_lt _ _ i hi 0 0]
    by_cases hp : (tgt.getD r []).getD i 0 = padTokenId
    · simp [hp]
    · simp [hp]

theorem seq2seq_label_masking_witness :
    preprocessLabels true true 0 [[3, 4, 0, 0]] = [[3, 4, -100, -100]] ∧
    ((preprocessLabels true true 0 [[3, 4, 0, 0]]).getD 0 []).getD 2 0 =
      -100 := by
  refine ⟨by decide, ?_⟩
  have h := (seq2seq_label_masking 0 [[3, 4, 0, 0]] 0 2
    (by decide) (by decide)).2.2
  exact h.trans (by decide)

/-! ## Collator selection of load_seq2seq_data (utils.py lines 159-166,
claim C5)

Line 160 picks default_data_collator when pad_to_max_length is true. The
else branch on lines 162-166 constructs DataCollatorForSeq2Seq with the
keyword arguments tokenizer, model=model and label_pad_token_id; the name
model is bound nowhere in load_seq2seq_data (its parameter is commented out
on line 83), so evaluating the arguments raises NameError and no collator is
produced on that path. -/

/-- The two collator values line 159-166 chooses between. -/
inductive Collator
  | defaultCollator
  | seq2seqCollator (labelPadTokenId : Int)
  deriving DecidableEq, Repr

/-- Lines 159-166: the collator selection as executed. -/
def selectCollator (padToMaxLength ignorePadForLoss : Bool)
    (tokenizerPadId : Int) : Except PyError Collator :=
  if padToMaxLength then .ok Collator.defaultCollator
  else .error PyError.nameErrorModelUndefined

/-- The label_pad_token_id expression of lines 165-166, as written in the
source: -100 if ignore_pad_for_loss else tokenizer.pad_token_id. -/
def labelPadTokenIdExpr (ignorePadForLoss : Bool) (tokenizerPadId : Int) :
    Int :=
  if ignorePadForLoss then -100 else tokenizerPadId

/-- Counterexample to claim C5 at pad_to_max_length = false,
ignore_pad_for_loss = false, tokenizer pad id 0: no collator is selected at
all (the construction dies with NameError), and the label_pad_token_id
expression of the source evaluates to the real pad id 0, not to -100. -/
theorem variable_length_collator_counterexample :
    selectCollator false false 0 = .error PyError.nameErrorModelUndefined ∧
    labelPadTokenIdExpr false 0 = 0 ∧ (0 : Int) ≠ -100 := by
  refine ⟨rfl, rfl, by decide⟩

/-- Claim C5 as amended: with pad_to_max_length false, load_seq2seq_data
raises NameError while constructing the collator (the model argument is an
undefined name); the label_pad_token_id expression it would pass is -100
exactly when ignore_pad_for_loss is true, and the tokenizer pad id when it
is false. -/
theorem variable_length_collator_amended (ip : Bool) (tokenizerPadId : Int) :
    selectCollator false ip tokenizerPadId =
      .error PyError.nameErrorModelUndefined ∧
    (ip = true → labelPadTokenIdExpr ip tokenizerPadId = -100) ∧
    (ip = false → labelPadTokenIdExpr ip tokenizerPadId = tokenizerPadId) := by
  refine ⟨rfl, ?_, ?_⟩
  · rintro rfl; rfl
  · rintro rfl; rfl

theorem variable_length_collator_amended_witness :
    selectCollator false true 0 = .error PyError.nameErrorModelUndefined ∧
    labelPadTokenIdExpr true 0 = -100 := by
  exact ⟨(variable_length_collator_amended true 0).1,
    (variable_length_collator_amended true 0).2.1 rfl⟩

/-! ## extend_vocabulary (utils.py lines 72-77, claim C9)

A file is embedded as its suffix, its existence bit, and its logical lines
(each a list of characters, without the trailing newline). Python
line.strip() is embedded as dropping whitespace from both ends. The .ok
value is the vocab list passed to tokenizer.add_tokens on line 77. -/

/-- File suffixes distinguished by the source: the checks on lines 73 and 96
compare fname.suffix against .txt and .json. -/
inductive FileSuffix
  | txt | json | other
  deriving DecidableEq, Repr

/-- A vocabulary file as seen by extend_vocabulary. -/
structure VocabFile where
  suffix : FileSuffix
  fileExists : Bool
  fileLines : List (List Char)

/-- Python str.strip(): remove leading and trailing whitespace. -/
def stripLine (l : List Char) : List Char :=
  ((l.dropWhile Char.isWhitespace).reverse.dropWhile Char.isWhitespace).reverse

/-- Lines 72-77: extend_vocabulary raises ValueError when the suffix is not
.txt or the file does not exist (line 73), and otherwise passes to
tokenizer.add_tokens the stripped form of every line of the file
(lines 76-77, no filtering of empty lines). -/
def extend_vocabulary (f : VocabFile) : Except PyError (List (List Char)) :=
  if f.suffix ≠ FileSuffix.txt ∨ f.fileExists = false then
    .error PyError.valueErrorUnknownSrcFile
  else .ok (f.fileLines.map stripLine)

/-- Counterexample to claim C9: a .txt file whose middle line is empty; the
vocab list passed to add_tokens contains the empty line, where the claim
says no empty line is added. -/
theorem extend_vocabulary_counterexample :
    extend_vocabulary ⟨FileSuffix.txt, true, [['a'], [], ['b']]⟩ =
      .ok [['a'], [], ['b']] ∧
    ([] : List Char) ∈ [[('a' : Char)], [], ['b']] := by
  exact ⟨rfl, by decide⟩

/-- Claim C9 as amended: extend_vocabulary raises ValueError (the
InvalidInputError of the error taxonomy) exactly when the file is missing or
its suffix is not .txt, and otherwise passes to add_tokens the stripped form
of every line of the file, empty lines included. -/
theorem extend_vocabulary_amended (f : VocabFile) :
    (f.suffix ≠ FileSuffix.txt ∨ f.fileExists = false →
      extend_vocabulary f = .error PyError.valueErrorUnknownSrcFile) ∧
    (f.suffix = FileSuffix.txt → f.fileExists = true →
      extend_vocabulary f = .ok (f.fileLines.map stripLine)) := by
  constructor
  · intro hbad
    unfold extend_vocabulary
    rw [if_pos hbad]
  · intro hsuf hex
    unfold extend_vocabulary
    rw [if_neg]
    push_neg
    exact ⟨hsuf, by simp [hex]⟩

theorem extend_vocabulary_amended_witness :
    extend_vocabulary ⟨FileSuffix.json, true, []⟩ =
      .error PyError.valueErrorUnknownSrcFile ∧
    extend_vocabulary ⟨FileSuffix.txt, true, [['a']]⟩ = .ok [['a']] := by
  constructor
  · exact (extend_vocabulary_amended ⟨FileSuffix.json, true, []⟩).1
      (Or.inl (by decide))
  · exact ((extend_vocabulary_amended ⟨FileSuffix.txt, true, [['a']]⟩).2
      rfl rfl).trans (by decide)

/-! ## TrainingAgent epoch loop (train.py lines 83-136, claims C6-C8)

The model, optimizer and scheduler are external collaborators; what the
embedding keeps of a training batch is the pair of scalars the forward pass
can yield for it: loss.item() and, for the multi-replica case, the value of
loss.mean().item(). Loss scalars are idealised as integers so that the embedding stays exactly evaluable. Each step of
the loop also produces the trace of the training operations it performed,
in order, so that ordering claims are statable. An Except.error result
models an uncaught Python exception ending the run. -/

/-- The two values self.device compares against; the class attribute on
line 32 is cuda and nothing in the source ever assigns another value. -/
inductive Device
  | cuda | cpu
  deriving DecidableEq, Repr

/-- The agent state read by the epoch loop: self.args.train.gpu (None or
the list of device ids, as the len call of line 54 requires), self.device,
self.args.train.clip_grad and whether self.scheduler is None. The last two
fields are read only by lines 114 and 118, which turn out to be unreachable
(see epochStep); they are kept because they are declared agent state. -/
structure AgentEnv where
  gpu : Option (List Nat)
  device : Device
  clipGrad : Int
  hasScheduler : Bool

/-- The training operations named by the step body, lines 104-119, in
source order. Execution only ever reaches zeroGrad (see epochStep); the
remaining constructors record the vocabulary of the dead statements. -/
inductive TrainEvent
  | zeroGrad | forward | meanLoss | accumulateLoss | backward
  | clipGradNorm | optimizerStep | schedulerStep
  deriving DecidableEq, Repr

/-- One iteration of the loop of lines 99-119, given the accumulated
train_loss and the batch scalars (loss.item(), loss.mean().item()) the
forward could yield. Line 100 tests self.args.train.gpu is not None and
self.device == cuda; when the test holds, line 101 evaluates
self.train.gpu, but self.train is the bound method train (line 78) and has
no attribute gpu, so the step dies before zero_grad. When the test fails
the transfer branch of lines 101-103 is skipped, line 104 runs zero_grad,
and the forward call of lines 105-106 evaluates its
attention_mask=input_mask argument; input_mask is assigned only on
line 102 inside the skipped branch, so the local name is unbound and the
step dies before the forward runs. Hence every step raises, and
lines 108-119 (loss.mean for several devices, accumulation into
train_loss, backward, clip for clip_grad > 0, optimizer step, scheduler
step when one is configured) are dead code in every state. -/
def epochStep (env : AgentEnv) (_batch : Int × Int) (_acc : Int) :
    List TrainEvent × Except PyError Int :=
  if env.gpu.isSome ∧ env.device = Device.cuda then
    ([], .error PyError.methodTrainHasNoAttributeGpu)
  else
    ([TrainEvent.zeroGrad], .error PyError.unboundLocalInputMask)

/-- The loop of lines 99-119 over the remaining batches: an exception in a
step ends the run with the events performed so far. -/
def epochIterationGo (env : AgentEnv) :
    List (Int × Int) → Int → List TrainEvent × Except PyError Int
  | [], acc => ([], .ok acc)
  | b :: bs, acc =>
    match epochStep env b acc with
    | (evs, .error e) => (evs, .error e)
    | (evs, .ok acc2) =>
      let rest := epochIterationGo env bs acc2
      (evs ++ rest.1, rest.2)

/-- train.py lines 96-120, epoch_iteration: train_loss starts at 0
(line 98), the loop runs over the train loader, and the accumulated
train_loss is returned (line 120). -/
def epochIteration (env : AgentEnv) (trainLoader : List (Int × Int)) :
    List TrainEvent × Except PyError Int :=
  epochIterationGo env trainLoader 0

/-- train.py lines 122-136, validate: line 126 reads self.gpu, an attribute
TrainingAgent defines nowhere, so the first batch of the loop raises
AttributeError; with an empty loader the loop body never runs and
val_loss = 0 is returned. -/
def validateRun (valLoader : List (Int × Int)) : Except PyError Int :=
  match valLoader with
  | [] => .ok 0
  | _ :: _ => .error (PyError.agentHasNoAttribute AttrName.gpuA)

/-- The methods defined on class TrainingAgent, train.py lines 34-136. -/
def trainingAgentMethods : List AttrName :=
  [AttrName.resetA, AttrName.taskSetupA, AttrName.trainA,
   AttrName.runEpochsA, AttrName.epochIterationA, AttrName.validateA]

/-- The attribute name run_epochs dereferences for the validation phase:
line 89 reads val_loss = self.evaluate(epoch). -/
def runEpochsValidationCallee : AttrName := AttrName.evaluateA

/-- Attribute lookup self.<a> on the agent: a name the class does not
define raises AttributeError. -/
def lookupAgentMethod (a : AttrName) : Except PyError AttrName :=
  if a ∈ trainingAgentMethods then .ok a
  else .error (PyError.agentHasNoAttribute a)

/-- The validation-phase call of line 89: look the callee up on the agent,
then run it on the val loader. validate is the only method of the class
whose body computes a validation loss; the fallback arm for the other
defined methods is never reached, because run_epochs only ever applies this
to runEpochsValidationCallee. -/
def callValidation (valLoader : List (Int × Int)) (a : AttrName) :
    Except PyError Int :=
  match lookupAgentMethod a with
  | .error e => .error e
  | .ok m => if m = AttrName.validateA then validateRun valLoader else .ok 0

/-- train.py lines 83-94, run_epochs: per epoch, one epoch_iteration over
the train loader, then the call of line 89, then the print of lines 91-94
reporting both losses with the wall-clock duration of each phase. The .ok
value collects the (train_loss, val_loss) pair printed for every epoch. -/
def runEpochs (env : AgentEnv) (trainLoader valLoader : List (Int × Int)) :
    List Nat → Except PyError (List (Int × Int))
  | [] => .ok []
  | _e :: rest =>
    match (epochIteration env trainLoader).2 with
    | .error e => .error e
    | .ok trainLoss =>
      match callValidation valLoader runEpochsValidationCallee with
      | .error e => .error e
      | .ok valLoss =>
        match runEpochs env trainLoader valLoader rest with
        | .error e => .error e
        | .ok rs => .ok ((trainLoss, valLoss) :: rs)

/-- Claim C6 (code bug in the source): run_epochs calls self.evaluate for
the validation phase, but TrainingAgent defines no method named evaluate
(the validation method, lines 122-136, is named validate and is never
called), so every epoch dies with AttributeError right after the training
pass: no validation pass runs and no losses are reported. The evaluation
uses an empty train loader so that the training pass itself completes. -/
theorem run_epochs_calls_missing_evaluate :
    runEpochsValidationCallee ∉ trainingAgentMethods ∧
    AttrName.validateA ∈ trainingAgentMethods ∧
    runEpochs ⟨some [0], Device.cuda, 1, true⟩ [] [] [0] =
      .error (PyError.agentHasNoAttribute AttrName.evaluateA) :=
  ⟨by decide, by decide, rfl⟩

/-- Claim C7 (code bug in the source): the claim says epoch_iteration
returns the per-step losses summed with no division; in the code the
accumulation statement of line 112 is written that way but is unreachable:
the first step of any nonempty loader dies at line 101 (self.train.gpu,
where line 100 reads self.args.train.gpu) when the transfer branch is
taken, and at line 106 (the unbound local input_mask) when it is skipped,
before any forward. The only executions that return a scalar are those of
an empty loader, which return 0, the empty sum. The first two conjuncts
evaluate the two crashes at concrete states, the third the empty-loader
return, and the last proves that on every nonempty loader, in every agent
state, epoch_iteration ends in an error. -/
theorem epoch_iteration_never_returns_nonempty :
    (epochIteration ⟨some [0], Device.cuda, 1, true⟩ [(2, 2)]).2 =
      .error PyError.methodTrainHasNoAttributeGpu ∧
    (epochIteration ⟨none, Device.cuda, 1, true⟩ [(2, 2)]).2 =
      .error PyError.unboundLocalInputMask ∧
    (epochIteration ⟨some [0], Device.cuda, 1, true⟩ []).2 = .ok 0 ∧
    ∀ env : AgentEnv, ∀ b : Int × Int, ∀ bs : List (Int × Int),
      ∃ e, (epochIteration env (b :: bs)).2 = Except.error e := by
  refine ⟨rfl, rfl, rfl, ?_⟩
  intro env b bs
  by_cases h : env.gpu.isSome ∧ env.device = Device.cuda
  · exact ⟨PyError.methodTrainHasNoAttributeGpu,
      by simp [epochIteration, epochIterationGo, epochStep, h]⟩
  · exact ⟨PyError.unboundLocalInputMask,
      by simp [epochIteration, epochIterationGo, epochStep, h]⟩

/-- Claim C8 (code bug in the source): the claim says every training step
performs zero_grad, forward, conditional loss.mean, backward, conditional
clip, optimizer step, conditional scheduler step, in that order; in the
code no step ever gets past zero_grad: with the transfer branch taken the
step dies at line 101 before zero_grad (empty trace), and with it skipped
the step dies at line 106, after zero_grad and before the forward. The
last conjunct proves that in every agent state the trace of a step is []
or [zeroGrad]: no forward, backward, clip, optimizer step or scheduler
step is ever performed. -/
theorem epoch_step_never_reaches_forward :
    epochStep ⟨some [0], Device.cuda, 1, true⟩ (2, 2) 0 =
      ([], .error PyError.methodTrainHasNoAttributeGpu) ∧
    epochStep ⟨none, Device.cuda, 1, true⟩ (2, 2) 0 =
      ([TrainEvent.zeroGrad], .error PyError.unboundLocalInputMask) ∧
    ∀ env : AgentEnv, ∀ batch : Int × Int, ∀ acc : Int,
      (epochStep env batch acc).1 = [] ∨
      (epochStep env batch acc).1 = [TrainEvent.zeroGrad] := by
  refine ⟨rfl, rfl, ?_⟩
  intro env batch acc
  by_cases h : env.gpu.isSome ∧ env.device = Device.cuda
  · left; simp [epochStep, h]
  · right; simp [epochStep, h]
